import Mathlib

/-! # Verification of the bakemono simulation core

Shallow embedding of the core simulation of the "bakemono" 2D survival game
(`src/app/components/Game.tsx`).  Conventions used throughout:

* JavaScript numbers are modelled as exact rationals `ℚ`; timestamps
  (`Date.now()` values) are `ℚ` parameters named `now`.
* `Math.random()` draws are explicit streams `ℕ → ℚ` (one stream per call
  site, indexed by the loop iteration), so every randomized function is a
  deterministic function of its random inputs.
* A comparison `Math.sqrt (dx*dx + dy*dy) < c` against a nonnegative bound
  `c` is embedded as the equivalent `dx^2 + dy^2 < c^2`.
* Where the code uses the actual value of a Euclidean distance (division
  when normalizing a direction, the explosion damage falloff, speed
  renormalization), the square root is not rational, so the distance is
  passed as an explicit parameter `d` constrained in the theorems by
  `d^2 = dx^2 + dy^2 ∧ 0 ≤ d`.
* Cosmetic fields (the `color` strings) and rendering are not modelled.
-/

namespace Bakemono

/-- The player record (`interface Player`, Game.tsx lines 79-91).
Upgrade levels are natural numbers (they start at 0 and only increment). -/
structure Player where
  x : ℚ
  y : ℚ
  vx : ℚ
  vy : ℚ
  radius : ℚ
  bloodGauge : ℚ
  attackRadius : ℚ
  attackDamage : ℚ
  attackCooldown : ℚ
  lastAttackTime : ℚ
  attackLevel : ℕ
  rangeLevel : ℕ
  speedLevel : ℕ
  projectileLevel : ℕ
  lastProjectileTime : ℚ
  baseSpeed : ℚ
deriving DecidableEq

/-- The four enemy variants (`type: 'melee' | 'ranged' | 'explosive' | 'chaser'`). -/
inductive EnemyType where
  | melee
  | ranged
  | explosive
  | chaser
deriving DecidableEq

/-- The enemy record (`interface Enemy`, Game.tsx lines 93-108).
The optional fields `lastShootTime`, `lastTrailTime` are read by the update
loop as `enemy.lastShootTime || 0`, so `undefined` is modelled as `0`;
`exploded` is read by truthiness, so `undefined` is modelled as `false`.
The fields `shootCooldown` and `preferredDistance` are written at spawn but
never read (the update loop uses the constants directly), so they are not
modelled; `color` is cosmetic and not modelled. -/
structure Enemy where
  x : ℚ
  y : ℚ
  vx : ℚ
  vy : ℚ
  radius : ℚ
  health : ℚ
  maxHealth : ℚ
  damage : ℚ
  speed : ℚ
  level : ℤ
  type : EnemyType
  lastShootTime : ℚ
  explosionRadius : ℚ
  exploded : Bool
  lastTrailTime : ℚ
deriving DecidableEq

/-- The projectile record (`interface Projectile`, Game.tsx lines 110-120),
without the cosmetic `color` field. -/
structure Projectile where
  x : ℚ
  y : ℚ
  vx : ℚ
  vy : ℚ
  radius : ℚ
  damage : ℚ
  fromPlayer : Bool
  homing : Bool
deriving DecidableEq

/-! ## Upgrade actions (Game.tsx lines 804-853)

Each `strengthen*` function reads `ATTACK_UPGRADE_BASE_COST = 50`,
`DAMAGE_INCREASE_PER_LEVEL = 5`, `ATTACK_RANGE_INCREASE_PER_LEVEL = 20`.
The `setBloodGauge`/`setAttackLevel` calls update the React UI mirror of the
same values and are not part of the simulation state. -/

/-- `strengthenAttack` (lines 804-816): cost `50 * (attackLevel + 1)`;
if affordable, deduct the cost, increment the level, add 5 attack damage. -/
def strengthenAttack (p : Player) : Player :=
  let cost : ℚ := 50 * (p.attackLevel + 1)
  if p.bloodGauge ≥ cost then
    { p with bloodGauge := p.bloodGauge - cost
             attackLevel := p.attackLevel + 1
             attackDamage := p.attackDamage + 5 }
  else p

/-- `strengthenRange` (lines 818-829): cost `50 * (rangeLevel + 1)`;
if affordable, deduct the cost, increment the level, add 20 attack radius. -/
def strengthenRange (p : Player) : Player :=
  let cost : ℚ := 50 * (p.rangeLevel + 1)
  if p.bloodGauge ≥ cost then
    { p with bloodGauge := p.bloodGauge - cost
             rangeLevel := p.rangeLevel + 1
             attackRadius := p.attackRadius + 20 }
  else p

/-- `strengthenSpeed` (lines 831-841): cost `50 * (speedLevel + 1)`;
if affordable, deduct the cost and increment the level (movement speed is
derived each tick as `baseSpeed + speedLevel * 0.5`, line 310). -/
def strengthenSpeed (p : Player) : Player :=
  let cost : ℚ := 50 * (p.speedLevel + 1)
  if p.bloodGauge ≥ cost then
    { p with bloodGauge := p.bloodGauge - cost
             speedLevel := p.speedLevel + 1 }
  else p

/-- `strengthenProjectile` (lines 843-853): cost `50 * (projectileLevel + 1)`;
if affordable, deduct the cost and increment the level (all projectile stats
are derived from the level each tick, lines 323-330, 361-362). -/
def strengthenProjectile (p : Player) : Player :=
  let cost : ℚ := 50 * (p.projectileLevel + 1)
  if p.bloodGauge ≥ cost then
    { p with bloodGauge := p.bloodGauge - cost
             projectileLevel := p.projectileLevel + 1 }
  else p

/-- The per-tick movement speed, `player.baseSpeed + player.speedLevel *
MOVEMENT_SPEED_INCREASE_PER_LEVEL` with the constant `0.5` (line 310). -/
def moveSpeed (p : Player) : ℚ :=
  p.baseSpeed + p.speedLevel * 0.5

/-! ## Wave spawning (`spawnEnemyWave`, Game.tsx lines 699-802) -/

/-- The wave size computed at lines 707-711:
`altitude = max(0, -player.y)`, `waveCount = 1 + floor(altitude / 300) +
floor(score / 100)`.  `score` is a nonnegative integer (line 416), so
`Math.floor(score / 100)` is natural-number division. -/
def waveCount (score : ℕ) (playerY : ℚ) : ℤ :=
  let altitude : ℚ := max 0 (-playerY)
  1 + ⌊altitude / 300⌋ + (score / 100 : ℕ)

/-- Written from the spec's words, for comparison with `waveCount`:
"Wave size = `max(1, floor(altitude/300) + floor(score/100))`". -/
def specWaveCount (score : ℕ) (playerY : ℚ) : ℤ :=
  let altitude : ℚ := max 0 (-playerY)
  max 1 (⌊altitude / 300⌋ + (score / 100 : ℕ))

/-- The enemy level computed at line 721:
`Math.max(1, Math.floor(-spawnY / ENEMY_LEVEL_ALTITUDE_INTERVAL) + 1)`
with `ENEMY_LEVEL_ALTITUDE_INTERVAL = 500`. -/
def enemyLevel (spawnY : ℚ) : ℤ :=
  max 1 (⌊-spawnY / 500⌋ + 1)

/-- The enemy type selection at lines 728-758: one uniform draw `r` compared
against cumulative probability thresholds, keyed by the level tier.
The constants are `LEVEL_10_19_MELEE_PROBABILITY = 0.4`,
`LEVEL_10_19_RANGED_PROBABILITY = 0.7`, `LEVEL_20_PLUS_MELEE_PROBABILITY =
0.3`, `LEVEL_20_PLUS_RANGED_PROBABILITY = 0.55`,
`LEVEL_20_PLUS_EXPLOSIVE_PROBABILITY = 0.8`. -/
def chooseEnemyType (level : ℤ) (r : ℚ) : EnemyType :=
  if level ≤ 5 then EnemyType.melee
  else if level ≤ 9 then
    if r < 0.5 then EnemyType.melee else EnemyType.ranged
  else if level ≤ 19 then
    if r < 0.4 then EnemyType.melee
    else if r < 0.7 then EnemyType.ranged
    else EnemyType.explosive
  else
    if r < 0.3 then EnemyType.melee
    else if r < 0.55 then EnemyType.ranged
    else if r < 0.8 then EnemyType.explosive
    else EnemyType.chaser

/-- The per-type speed roll at lines 760-776; `r` stands for the
`Math.random()` draw in `[0,1)`. -/
def enemySpeedRoll (t : EnemyType) (r difficulty : ℚ) : ℚ :=
  match t with
  | EnemyType.melee => 1 + r * 2 * difficulty
  | EnemyType.ranged => 0.8 + r * 1.2 * difficulty
  | EnemyType.explosive => 1.5 + r * 2 * difficulty
  | EnemyType.chaser => 2 + r * 2.5 * difficulty

/-- One enemy of the wave (loop body, lines 714-801).  The random draws for
iteration `i` are `yRand i` (spawn-Y offset), `xRand i` (spawn X),
`tRand i` (type selection), `sRand i` (speed), `rRand i` (radius), each
standing for a `Math.random()` value in `[0,1)`.  `EXPLOSIVE_EXPLOSION_RADIUS
= 100`, `RANGED_ENEMY_SHOOT_COOLDOWN`/`CHASER_TRAIL_COOLDOWN` timestamps are
initialized to `Date.now()` (= `now`). -/
def mkSpawnedEnemy (score : ℕ) (playerY canvasW canvasH now : ℚ)
    (yRand xRand tRand sRand rRand : ℕ → ℚ) (i : ℕ) : Enemy :=
  let difficulty : ℚ := 1 + (score : ℚ) / 500
  let spawnY : ℚ := playerY - canvasH / 2 - 100 - yRand i * 200
  let spawnX : ℚ := xRand i * canvasW
  let level : ℤ := enemyLevel spawnY
  let t : EnemyType := chooseEnemyType level (tRand i)
  { x := spawnX
    y := spawnY
    vx := 0
    vy := 0
    radius := 15 + rRand i * 5 * difficulty
    health := 30 * difficulty * level
    maxHealth := 30 * difficulty * level
    damage := 5 * difficulty * level
    speed := enemySpeedRoll t (sRand i) difficulty
    level := level
    type := t
    lastShootTime := if t = EnemyType.ranged then now else 0
    explosionRadius := if t = EnemyType.explosive then 100 else 0
    exploded := false
    lastTrailTime := if t = EnemyType.chaser then now else 0 }

/-- `spawnEnemyWave` (lines 699-802): pushes `waveCount` enemies built by the
loop body.  Returns the list of new enemies (the code appends them to
`enemiesRef.current`). -/
def spawnEnemyWave (score : ℕ) (playerY canvasW canvasH now : ℚ)
    (yRand xRand tRand sRand rRand : ℕ → ℚ) : List Enemy :=
  (List.range (waveCount score playerY).toNat).map
    (mkSpawnedEnemy score playerY canvasW canvasH now yRand xRand tRand sRand rRand)

/-! ## Direction computations (normalizing the vector between two entities)

Each call site guards the division by the distance with a zero test. -/

/-- Player projectile aim velocity (lines 364-374): defaults to straight up
`(0, -PROJECTILE_SPEED_PLAYER)` = `(0, -8)`, overwritten by the normalized
direction to the target scaled to speed 8 when the distance is positive.
`d` is the distance `Math.sqrt ((tx-px)^2 + (ty-py)^2)`. -/
def playerProjVel (px py tx ty d : ℚ) : ℚ × ℚ :=
  if d > 0 then ((tx - px) / d * 8, (ty - py) / d * 8) else (0, -8)

/-- Enemy steering toward the player (melee, lines 444-449; the same shape is
used for explosive at 506-509 and chaser at 534-537): when the distance is
positive the velocity becomes the unit vector toward the player times the
enemy speed, otherwise the previous velocity `(evx, evy)` is kept. -/
def steerVel (ex ey evx evy px py d speed : ℚ) : ℚ × ℚ :=
  if d > 0 then ((px - ex) / d * speed, (py - ey) / d * speed) else (evx, evy)

/-- Ranged-enemy projectile velocity (lines 491-499): conditional expressions
`distance > 0 ? (dx / distance) * PROJECTILE_SPEED : 0` with
`PROJECTILE_SPEED = 3`, so the zero-distance case produces the zero vector. -/
def enemyProjVel (ex ey px py d : ℚ) : ℚ × ℚ :=
  if d > 0 then ((px - ex) / d * 3, (py - ey) / d * 3) else (0, 0)

/-! ## Explosive enemy branch (lines 503-531)

`EXPLOSIVE_TRIGGER_DISTANCE = 80`, `EXPLOSIVE_EXPLOSION_RADIUS = 100`,
`EXPLOSIVE_DAMAGE_MULTIPLIER = 3`.  `d` is the distance from the enemy to
the player computed at lines 440-442, before the branch runs. -/

/-- One tick of the explosive-enemy branch for a single enemy.  Returns the
updated player and `some` updated enemy, or `none` when the enemy was
removed by `enemies.splice(i, 1)`.  The JavaScript fallback
`enemy.explosionRadius || EXPLOSIVE_EXPLOSION_RADIUS` substitutes 100 when
the field is absent or zero. -/
def explosiveStep (p : Player) (e : Enemy) (d : ℚ) : Player × Option Enemy :=
  if e.exploded then (p, some e)
  else
    let v := steerVel e.x e.y e.vx e.vy p.x p.y d e.speed
    let e1 : Enemy := { e with vx := v.1, vy := v.2 }
    let e2 : Enemy := { e1 with x := e1.x + e1.vx, y := e1.y + e1.vy }
    if d < 80 then
      let er : ℚ := if e.explosionRadius = 0 then 100 else e.explosionRadius
      let p' : Player :=
        if d < er then
          { p with bloodGauge :=
              p.bloodGauge - e.damage * 3 * max 0 (1 - d / er) }
        else p
      (p', none)
    else (p, some e2)

/-! ## Blood-gauge recovery on a kill (lines 636-638 and 686-688)

`BLOOD_RECOVERY_MULTIPLIER = 0.5`; both kill sites compute
`Math.floor (30 * 0.5 * enemy.level)` and add it to the gauge, with no
upper clamp. -/

/-- `Math.floor (baseRecovery * enemy.level)` with `baseRecovery = 30 * 0.5`. -/
def bloodRecovery (level : ℤ) : ℤ :=
  ⌊(30 : ℚ) * 0.5 * (level : ℚ)⌋

/-- The blood-gauge fraction drawn by the health bar (line 947):
`Math.min (1, player.bloodGauge / BLOOD_GAUGE_DISPLAY_REFERENCE)` with the
reference value 100.  Only this visual display is capped. -/
def displayFraction (gauge : ℚ) : ℚ :=
  min 1 (gauge / 100)

/-! ## Player auto-attack (lines 672-696)

Fires when `currentTime - player.lastAttackTime > player.attackCooldown`
(strict).  The loop is `for (const enemy of enemies)` over the live array
with `enemies.splice(index, 1)` inside: removing the element at the
iterator's current position shifts the array left while the iterator's
index still advances, so the element that directly followed a removed enemy
is never visited during that activation. -/

/-- `Math.sqrt(dx^2 + dy^2) < player.attackRadius` (lines 675-679), embedded
as the squared comparison. -/
def inAttackRange (p : Player) (e : Enemy) : Bool :=
  decide ((p.x - e.x) ^ 2 + (p.y - e.y) ^ 2 < p.attackRadius ^ 2)

/-- The `for (const enemy of enemies)` body of the auto-attack (lines
674-694) with JavaScript array-iterator semantics under `splice`: a visited
in-range enemy takes `attackDamage`; if its health drops to `≤ 0` it is
removed, the player recovers `bloodRecovery enemy.level`, and the next list
element is skipped (kept unvisited); otherwise the damaged enemy is kept and
iteration continues. -/
def autoVisit : Player → List Enemy → Player × List Enemy
  | p, [] => (p, [])
  | p, e :: rest =>
    if inAttackRange p e then
      let e' : Enemy := { e with health := e.health - p.attackDamage }
      if e'.health ≤ 0 then
        let p' : Player :=
          { p with bloodGauge := p.bloodGauge + (bloodRecovery e.level : ℚ) }
        match rest with
        | [] => (p', [])
        | f :: rest' =>
          let r := autoVisit p' rest'
          (r.1, f :: r.2)
      else
        let r := autoVisit p rest
        (r.1, e' :: r.2)
    else
      let r := autoVisit p rest
      (r.1, e :: r.2)

/-- The auto-attack block (lines 672-696): on cooldown expiry run the loop
and stamp `lastAttackTime := currentTime`; otherwise do nothing. -/
def autoAttack (now : ℚ) (p : Player) (es : List Enemy) : Player × List Enemy :=
  if now - p.lastAttackTime > p.attackCooldown then
    let r := autoVisit p es
    ({ r.1 with lastAttackTime := now }, r.2)
  else (p, es)

/-- The enemies that the auto-attack loop skips when every enemy is within
range and dies from one hit: the elements at odd (0-based) positions. -/
def skipSurvivors : List Enemy → List Enemy
  | [] => []
  | [_] => []
  | _ :: b :: rest => b :: skipSurvivors rest

/-- The total recovery granted in that same all-kill scenario: the recoveries
of the elements at even (0-based) positions. -/
def skipRecovery : List Enemy → ℤ
  | [] => 0
  | [a] => bloodRecovery a.level
  | a :: _ :: rest => bloodRecovery a.level + skipRecovery rest

/-! ## Player projectile collision with enemies (lines 623-649)

The scan runs `for (let j = enemies.length - 1; j >= 0; j--)`, i.e. from the
end of the array, and `break`s on the first overlapping enemy. -/

/-- `Math.sqrt((ex-px)^2 + (ey-py)^2) < enemy.radius + projectile.radius`
(lines 628-632), embedded as the squared comparison. -/
def projHits (pr : Projectile) (e : Enemy) : Bool :=
  decide ((e.x - pr.x) ^ 2 + (e.y - pr.y) ^ 2 < (e.radius + pr.radius) ^ 2)

/-- The backwards scan of a player projectile over the enemy array (lines
626-644).  The recursion processes the tail (the higher indices) first, as
the code does; the `Bool` result is the `hitEnemy` flag.  On the first
overlap found the enemy takes the projectile damage; if it dies it is
removed and the player recovers `bloodRecovery enemy.level`. -/
def projScan (pr : Projectile) : Player → List Enemy → Player × List Enemy × Bool
  | p, [] => (p, [], false)
  | p, e :: rest =>
    let r := projScan pr p rest
    if r.2.2 then (r.1, e :: r.2.1, true)
    else if projHits pr e then
      let e' : Enemy := { e with health := e.health - pr.damage }
      if e'.health ≤ 0 then
        ({ r.1 with bloodGauge := r.1.bloodGauge + (bloodRecovery e.level : ℚ) },
         r.2.1, true)
      else (r.1, e' :: r.2.1, true)
    else (r.1, e :: r.2.1, false)

/-! ## Player ranged fire: target selection (lines 328-391)

`PROJECTILE_COUNT_BASE = 1`, `PROJECTILE_COUNT_INCREASE_INTERVAL = 3`.
The enemy array copy is sorted by the comparator `distA - distB` on the
Euclidean distances to the player; sorting by the distance is the same
total preorder as sorting by the squared distance, which is used here. -/

/-- `projectileCount = 1 + Math.floor((projectileLevel - 1) / 3)` (line 330);
only evaluated when `projectileLevel > 0`. -/
def projectileCount (level : ℕ) : ℕ :=
  1 + (level - 1) / 3

/-- Squared distance from an enemy to the player, the sort key of the
comparator at lines 337-341. -/
def dist2ToPlayer (p : Player) (e : Enemy) : ℚ :=
  (e.x - p.x) ^ 2 + (e.y - p.y) ^ 2

/-- The comparator of the sort at lines 337-341 as a `Bool` relation. -/
def nearerThan (p : Player) (a b : Enemy) : Bool :=
  decide (dist2ToPlayer p a ≤ dist2ToPlayer p b)

/-- Target selection (lines 332-358): take the `n` nearest enemies of the
distance-sorted copy; only if that leaves zero targets (and `n > 0`) fall
back to `n` fan-out targets.  A fan-out target `i` sits at
`player + 100 * (cos θᵢ, sin θᵢ)` with `θᵢ = i * 2π / max n 8 - π / 2`
(lines 350-357); those coordinates are irrational, so the fan positions are
supplied by the parameter `fan`.  Returns the list of target positions, one
projectile being created per target (lines 364-388). -/
def selectTargets (p : Player) (enemies : List Enemy) (n : ℕ)
    (fan : ℕ → ℚ × ℚ) : List (ℚ × ℚ) :=
  let sorted := enemies.mergeSort (nearerThan p)
  let chosen := (sorted.take (min n sorted.length)).map (fun e => (e.x, e.y))
  if chosen.length = 0 ∧ 0 < n then (List.range n).map fan else chosen

/-- The projectile-creation loop over the selected targets (lines 364-388):
one projectile per target, at the player position, with radius 6, damage
`15 + (projectileLevel - 1) * 5`, homing once `projectileLevel ≥ 10`, and
velocity `playerProjVel` computed from the distance to the target (supplied
by the oracle `dfn` standing for `Math.sqrt`). -/
def playerShoot (p : Player) (enemies : List Enemy) (fan : ℕ → ℚ × ℚ)
    (dfn : ℚ × ℚ → ℚ) : List Projectile :=
  (selectTargets p enemies (projectileCount p.projectileLevel) fan).map
    (fun t =>
      let v := playerProjVel p.x p.y t.1 t.2 (dfn t)
      { x := p.x
        y := p.y
        vx := v.1
        vy := v.2
        radius := 6
        damage := 15 + ((p.projectileLevel : ℚ) - 1) * 5
        fromPlayer := true
        homing := decide (p.projectileLevel ≥ 10) })

/-! ## Homing update of a player projectile (lines 579-618)

`PROJECTILE_SPEED_PLAYER = 8`, `PROJECTILE_HOMING_STRENGTH = 0.15`.
`(dx, dy)` is the vector from the projectile to the nearest enemy, `d` its
length, and `s` the length of the interpolated velocity (both square roots
are passed as parameters). -/

/-- The velocity interpolation at lines 602-608: 15% of the way from the
current velocity toward the unit direction to the enemy scaled to speed 8. -/
def homingInterp (vx vy dx dy d : ℚ) : ℚ × ℚ :=
  (vx + (dx / d * 8 - vx) * 0.15, vy + (dy / d * 8 - vy) * 0.15)

/-- One homing step (lines 596-617): nothing happens unless the distance to
the nearest enemy is positive; then the velocity is interpolated and, when
its magnitude `s` is positive, renormalized to speed 8 (lines 610-615). -/
def homingStep (vx vy dx dy d s : ℚ) : ℚ × ℚ :=
  if d > 0 then
    if s > 0 then
      ((homingInterp vx vy dx dy d).1 / s * 8,
       (homingInterp vx vy dx dy d).2 / s * 8)
    else homingInterp vx vy dx dy d
  else (vx, vy)

/-- The homing update including the nearest-enemy scan result (lines
581-617): when no enemy exists (`nearestEnemy` stays `null`) the velocity is
left unchanged. -/
def homingUpdate (vx vy : ℚ) (nearest : Option (ℚ × ℚ)) (d s : ℚ) : ℚ × ℚ :=
  match nearest with
  | none => (vx, vy)
  | some del => homingStep vx vy del.1 del.2 d s

/-! ## Concrete test data -/

/-- The initial player state (Game.tsx lines 133-150). -/
def initialPlayer : Player :=
  { x := 0
    y := 0
    vx := 0
    vy := 0
    radius := 20
    bloodGauge := 100
    attackRadius := 150
    attackDamage := 10
    attackCooldown := 500
    lastAttackTime := 0
    attackLevel := 0
    rangeLevel := 0
    speedLevel := 0
    projectileLevel := 0
    lastProjectileTime := 0
    baseSpeed := 5 }

/-! ## C1: the four upgrade tracks -/

/-- **C1.**  For every player state and each of the four upgrade tracks, the
upgrade succeeds (the track's level increments) iff
`bloodGauge ≥ 50 * (level + 1)`; on success the gauge decreases by exactly
that cost and the level increments by exactly 1, with the fixed per-level
effect (attack: +5 damage, range: +20 radius, speed: +0.5 derived move
speed, projectile: level only, the projectile stats being derived from the
level); on failure the player state is unchanged. -/
theorem c1_upgrade_affordability (p : Player) :
    (((strengthenAttack p).attackLevel = p.attackLevel + 1) ↔
      p.bloodGauge ≥ 50 * ((p.attackLevel : ℚ) + 1)) ∧
    (p.bloodGauge ≥ 50 * ((p.attackLevel : ℚ) + 1) →
      strengthenAttack p =
        { p with bloodGauge := p.bloodGauge - 50 * ((p.attackLevel : ℚ) + 1)
                 attackLevel := p.attackLevel + 1
                 attackDamage := p.attackDamage + 5 }) ∧
    (¬ p.bloodGauge ≥ 50 * ((p.attackLevel : ℚ) + 1) → strengthenAttack p = p) ∧
    (((strengthenRange p).rangeLevel = p.rangeLevel + 1) ↔
      p.bloodGauge ≥ 50 * ((p.rangeLevel : ℚ) + 1)) ∧
    (p.bloodGauge ≥ 50 * ((p.rangeLevel : ℚ) + 1) →
      strengthenRange p =
        { p with bloodGauge := p.bloodGauge - 50 * ((p.rangeLevel : ℚ) + 1)
                 rangeLevel := p.rangeLevel + 1
                 attackRadius := p.attackRadius + 20 }) ∧
    (¬ p.bloodGauge ≥ 50 * ((p.rangeLevel : ℚ) + 1) → strengthenRange p = p) ∧
    (((strengthenSpeed p).speedLevel = p.speedLevel + 1) ↔
      p.bloodGauge ≥ 50 * ((p.speedLevel : ℚ) + 1)) ∧
    (p.bloodGauge ≥ 50 * ((p.speedLevel : ℚ) + 1) →
      strengthenSpeed p =
        { p with bloodGauge := p.bloodGauge - 50 * ((p.speedLevel : ℚ) + 1)
                 speedLevel := p.speedLevel + 1 } ∧
      moveSpeed (strengthenSpeed p) = moveSpeed p + 0.5) ∧
    (¬ p.bloodGauge ≥ 50 * ((p.speedLevel : ℚ) + 1) → strengthenSpeed p = p) ∧
    (((strengthenProjectile p).projectileLevel = p.projectileLevel + 1) ↔
      p.bloodGauge ≥ 50 * ((p.projectileLevel : ℚ) + 1)) ∧
    (p.bloodGauge ≥ 50 * ((p.projectileLevel : ℚ) + 1) →
      strengthenProjectile p =
        { p with bloodGauge := p.bloodGauge - 50 * ((p.projectileLevel : ℚ) + 1)
                 projectileLevel := p.projectileLevel + 1 }) ∧
    (¬ p.bloodGauge ≥ 50 * ((p.projectileLevel : ℚ) + 1) →
      strengthenProjectile p = p) := by
  refine ⟨?_, ?_, ?_, ?_, ?_, ?_, ?_, ?_, ?_, ?_, ?_, ?_⟩
  · by_cases h : p.bloodGauge ≥ 50 * ((p.attackLevel : ℚ) + 1) <;>
      simp [strengthenAttack, h]
  · intro h; simp [strengthenAttack, h]
  · intro h; simp [strengthenAttack, h]
  · by_cases h : p.bloodGauge ≥ 50 * ((p.rangeLevel : ℚ) + 1) <;>
      simp [strengthenRange, h]
  · intro h; simp [strengthenRange, h]
  · intro h; simp [strengthenRange, h]
  · by_cases h : p.bloodGauge ≥ 50 * ((p.speedLevel : ℚ) + 1) <;>
      simp [strengthenSpeed, h]
  · intro h
    refine ⟨by simp [strengthenSpeed, h], ?_⟩
    simp only [strengthenSpeed, ge_iff_le, h, if_pos, moveSpeed]
    push_cast
    ring
  · intro h; simp [strengthenSpeed, h]
  · by_cases h : p.bloodGauge ≥ 50 * ((p.projectileLevel : ℚ) + 1) <;>
      simp [strengthenProjectile, h]
  · intro h; simp [strengthenProjectile, h]
  · intro h; simp [strengthenProjectile, h]

/-- Witness for C1 at the initial player (gauge 100, all levels 0): the
attack upgrade costs 50 and succeeds, leaving gauge 50, level 1, damage 15;
a second attack upgrade would cost 100 and fails, leaving the state fixed. -/
theorem c1_upgrade_affordability_witness :
    (strengthenAttack initialPlayer).bloodGauge = 50 ∧
    (strengthenAttack initialPlayer).attackLevel = 1 ∧
    (strengthenAttack initialPlayer).attackDamage = 15 ∧
    strengthenAttack (strengthenAttack initialPlayer) =
      strengthenAttack initialPlayer := by
  have h1 := (c1_upgrade_affordability initialPlayer).2.1 (by
    norm_num [initialPlayer])
  have h2 := (c1_upgrade_affordability (strengthenAttack initialPlayer)).2.2.1
  rw [h1] at h2 ⊢
  refine ⟨by norm_num [initialPlayer], by norm_num [initialPlayer],
    by norm_num [initialPlayer], h2 (by norm_num [initialPlayer])⟩

/-! ## C3: wave size -/

/-- **C3 (counterexample).**  At altitude 300 with score 0 the code spawns
`1 + floor(300/300) + 0 = 2` enemies, while the claimed formula
`max(1, floor(altitude/300) + floor(score/100))` gives 1, so the claim's
formula does not match the code (it is off by the unconditional leading 1). -/
theorem c3_wave_size_counterexample :
    waveCount 0 (-300) = 2 ∧ specWaveCount 0 (-300) = 1 ∧
    waveCount 0 (-300) ≠ specWaveCount 0 (-300) := by
  norm_num [waveCount, specWaveCount]

/-- **C3 (amended).**  For every call, `spawnEnemyWave` produces exactly
`1 + floor(altitude/300) + floor(score/100)` new enemies, where
`altitude = max(0, -playerY)` at call time; in particular it always produces
at least 1 enemy per call. -/
theorem c3_wave_count_amended (score : ℕ) (py cw ch now : ℚ)
    (yR xR tR sR rR : ℕ → ℚ) :
    waveCount score py = 1 + ⌊max 0 (-py) / 300⌋ + (score / 100 : ℕ) ∧
    1 ≤ waveCount score py ∧
    (spawnEnemyWave score py cw ch now yR xR tR sR rR).length =
      (waveCount score py).toNat ∧
    1 ≤ (spawnEnemyWave score py cw ch now yR xR tR sR rR).length := by
  have h0 : (0 : ℤ) ≤ ⌊max 0 (-py) / 300⌋ :=
    Int.floor_nonneg.mpr (by positivity)
  refine ⟨rfl, ?_, ?_, ?_⟩
  · simp only [waveCount]
    omega
  · simp [spawnEnemyWave]
  · simp only [spawnEnemyWave, List.length_map, List.length_range, waveCount]
    omega

/-! ## C6: enemy level as a function of spawn altitude -/

/-- **C6.**  Every enemy created by `spawnEnemyWave` has
`level = max(1, floor(-spawnY/500) + 1)`, a pure function of its spawn
position: for altitude `A = -spawnY ≥ 0` the level is `floor(A/500) + 1`
(so 1 for `A ∈ [0, 500)`, 2 for `A ∈ [500, 1000)`), and the level of the
`i`-th spawned enemy does not depend on the score (nor on any time input,
which `enemyLevel` does not even take). -/
theorem c6_enemy_level_altitude :
    (∀ (score : ℕ) (py cw ch now : ℚ) (yR xR tR sR rR : ℕ → ℚ),
      ∀ e ∈ spawnEnemyWave score py cw ch now yR xR tR sR rR,
        e.level = max 1 (⌊-e.y / 500⌋ + 1)) ∧
    (∀ A : ℚ, 0 ≤ A → enemyLevel (-A) = ⌊A / 500⌋ + 1) ∧
    (∀ A : ℚ, 0 ≤ A → A < 500 → enemyLevel (-A) = 1) ∧
    (∀ A : ℚ, 500 ≤ A → A < 1000 → enemyLevel (-A) = 2) ∧
    (∀ (s₁ s₂ : ℕ) (py cw ch now : ℚ) (yR xR tR sR rR : ℕ → ℚ) (i : ℕ)
      (h₁ : i < (spawnEnemyWave s₁ py cw ch now yR xR tR sR rR).length)
      (h₂ : i < (spawnEnemyWave s₂ py cw ch now yR xR tR sR rR).length),
      ((spawnEnemyWave s₁ py cw ch now yR xR tR sR rR).get ⟨i, h₁⟩).level =
      ((spawnEnemyWave s₂ py cw ch now yR xR tR sR rR).get ⟨i, h₂⟩).level) := by
  refine ⟨?_, ?_, ?_, ?_, ?_⟩
  · intro score py cw ch now yR xR tR sR rR e he
    simp only [spawnEnemyWave, List.mem_map] at he
    obtain ⟨i, -, rfl⟩ := he
    simp [mkSpawnedEnemy, enemyLevel]
  · intro A hA
    have h0 : (0 : ℤ) ≤ ⌊A / 500⌋ := Int.floor_nonneg.mpr (by positivity)
    simp only [enemyLevel, neg_neg]
    omega
  · intro A hA hA'
    have h0 : ⌊A / 500⌋ = 0 := by
      rw [Int.floor_eq_zero_iff]
      constructor
      · positivity
      · rw [div_lt_one (by norm_num)]
        linarith
    simp only [enemyLevel, neg_neg, h0]
    norm_num
  · intro A hA hA'
    have h1 : ⌊A / 500⌋ = 1 := by
      rw [Int.floor_eq_iff]
      push_cast
      constructor
      · rw [le_div_iff (by norm_num : (0:ℚ) < 500)]
        linarith
      · rw [div_lt_iff (by norm_num : (0:ℚ) < 500)]
        linarith
    simp only [enemyLevel, neg_neg, h1]
    norm_num
  · intro s₁ s₂ py cw ch now yR xR tR sR rR i h₁ h₂
    simp [spawnEnemyWave, mkSpawnedEnemy]

/-- Witness for C6 at concrete inputs: a wave spawned with the zero random
streams from player height 0 on a 600-unit screen places its single enemy at
`spawnY = -400`, so the theorem gives it level `max 1 (⌊400/500⌋ + 1) = 1`;
the tier conjuncts give `enemyLevel (-400) = 1` and `enemyLevel (-700) = 2`. -/
theorem c6_enemy_level_altitude_witness :
    (mkSpawnedEnemy 0 0 800 600 0 (fun _ => 0) (fun _ => 0) (fun _ => 0)
        (fun _ => 0) (fun _ => 0) 0).level = 1 ∧
    enemyLevel (-400) = 1 ∧ enemyLevel (-700) = 2 := by
  have hlist : spawnEnemyWave 0 0 800 600 0 (fun _ => 0) (fun _ => 0)
      (fun _ => 0) (fun _ => 0) (fun _ => 0) =
      [mkSpawnedEnemy 0 0 800 600 0 (fun _ => 0) (fun _ => 0) (fun _ => 0)
        (fun _ => 0) (fun _ => 0) 0] := by
    norm_num [spawnEnemyWave, waveCount, List.range_succ]
  have h1 := c6_enemy_level_altitude.1 0 0 800 600 0 (fun _ => 0) (fun _ => 0)
    (fun _ => 0) (fun _ => 0) (fun _ => 0)
    (mkSpawnedEnemy 0 0 800 600 0 (fun _ => 0) (fun _ => 0) (fun _ => 0)
      (fun _ => 0) (fun _ => 0) 0) (by rw [hlist]; exact List.mem_singleton.mpr rfl)
  refine ⟨?_, c6_enemy_level_altitude.2.2.1 400 (by norm_num) (by norm_num),
    c6_enemy_level_altitude.2.2.2.1 700 (by norm_num) (by norm_num)⟩
  rw [h1]
  norm_num [mkSpawnedEnemy]

/-! ## C2: auto-attack -/

/-- A melee test enemy at the player start position with 1 health. -/
def enemyA : Enemy :=
  { x := 0
    y := 0
    vx := 0
    vy := 0
    radius := 15
    health := 1
    maxHealth := 30
    damage := 5
    speed := 1
    level := 1
    type := EnemyType.melee
    lastShootTime := 0
    explosionRadius := 0
    exploded := false
    lastTrailTime := 0 }

/-- A second melee test enemy with 1 health, 10 units from the player. -/
def enemyB : Enemy := { enemyA with x := 10 }

/-- A sturdier melee test enemy (30 health) at the player position. -/
def enemyC : Enemy := { enemyA with health := 30 }

/-- When no visited in-range enemy dies, the auto-attack loop damages every
in-range enemy, keeps every enemy, and leaves the player unchanged. -/
theorem autoVisit_no_kill :
    ∀ (es : List Enemy) (p : Player),
      (∀ e ∈ es, inAttackRange p e = true → p.attackDamage < e.health) →
      autoVisit p es =
        (p, es.map fun e =>
          if inAttackRange p e then
            { e with health := e.health - p.attackDamage } else e)
  | [], _, _ => by simp [autoVisit]
  | e :: rest, p, h => by
    have ih := autoVisit_no_kill rest p (fun x hx => h x (by simp [hx]))
    by_cases hin : inAttackRange p e = true
    · have hs : ¬ (e.health - p.attackDamage ≤ 0) := by
        have := h e (by simp) hin
        linarith
      simp [autoVisit, hin, hs, ih]
    · simp [autoVisit, hin, ih]

/-- When every enemy is in range and lethally damaged, the auto-attack loop
removes exactly the even-indexed enemies (each removal shifts the array under
the live iterator, skipping the next element): the survivors are
`skipSurvivors es`, untouched, and the gauge grows by `skipRecovery es`. -/
theorem autoVisit_all_kill :
    ∀ (es : List Enemy) (p : Player),
      (∀ e ∈ es, inAttackRange p e = true ∧ e.health ≤ p.attackDamage) →
      (autoVisit p es).2 = skipSurvivors es ∧
      (autoVisit p es).1.bloodGauge = p.bloodGauge + (skipRecovery es : ℚ)
  | [], p, _ => by simp [autoVisit, skipSurvivors, skipRecovery]
  | [e], p, h => by
    obtain ⟨hin, hk⟩ := h e (List.mem_singleton.mpr rfl)
    simp [autoVisit, hin, skipSurvivors, skipRecovery,
      show e.health - p.attackDamage ≤ 0 by linarith]
  | a :: b :: rest, p, h => by
    obtain ⟨hin, hk⟩ := h a (by simp)
    have ih := autoVisit_all_kill rest
      { p with bloodGauge := p.bloodGauge + (bloodRecovery a.level : ℚ) }
      (fun x hx => h x (by simp [hx]))
    constructor
    · simp only [autoVisit, hin, if_true,
        show a.health - p.attackDamage ≤ 0 by linarith, skipSurvivors]
      simp [ih.1]
    · simp only [autoVisit, hin, if_true,
        show a.health - p.attackDamage ≤ 0 by linarith, skipRecovery]
      simp [ih.2]
      ring

/-- **C2 (counterexample).**  At time 501 (strictly past the 500 ms
cooldown), `enemyA` and `enemyB` are both within `attackRadius` 150 of the
initial player with health 1 ≤ attackDamage 10, so the claim demands that
both be damaged, killed and removed; the code kills `enemyA` but never
visits `enemyB`, which survives with its health untouched.  Moreover at
time 500, with exactly `attackCooldown` ms elapsed (the claim's "at least"),
the code does not attack at all. -/
theorem c2_auto_attack_counterexample :
    (autoAttack 501 initialPlayer [enemyA, enemyB]).2 = [enemyB] ∧
    enemyB.health = 1 ∧
    inAttackRange initialPlayer enemyB = true ∧
    autoAttack 500 initialPlayer [enemyA] = (initialPlayer, [enemyA]) := by
  refine ⟨?_, by norm_num [enemyB, enemyA], ?_, ?_⟩
  · norm_num [autoAttack, autoVisit, inAttackRange, initialPlayer, enemyA,
      enemyB, bloodRecovery]
  · norm_num [inAttackRange, initialPlayer, enemyB, enemyA]
  · norm_num [autoAttack, initialPlayer]

/-- **C2 (amended).**  The auto-attack fires only when strictly more than
`attackCooldown` ms have elapsed since `lastAttackTime` (at exactly the
cooldown nothing happens).  When it fires it damages every enemy it visits
that is within `attackRadius` by `attackDamage`; if no visited enemy dies,
that is every in-range enemy, and all enemies are kept.  An enemy whose
health drops ≤ 0 is removed and grants `floor(30 × 0.5 × enemyLevel)` blood
recovery, but the in-place removal skips the enemy immediately following it
in the list for that activation: if every enemy is in range and lethally
damaged, exactly the even-indexed enemies are removed (gauge growing by
`skipRecovery`) and the odd-indexed ones survive undamaged. -/
theorem c2_auto_attack_amended (now : ℚ) (p : Player) (es : List Enemy) :
    (¬ (now - p.lastAttackTime > p.attackCooldown) →
      autoAttack now p es = (p, es)) ∧
    (now - p.lastAttackTime > p.attackCooldown →
      ((∀ e ∈ es, inAttackRange p e = true → p.attackDamage < e.health) →
        autoAttack now p es =
          ({ p with lastAttackTime := now },
           es.map fun e =>
             if inAttackRange p e then
               { e with health := e.health - p.attackDamage } else e)) ∧
      ((∀ e ∈ es, inAttackRange p e = true ∧ e.health ≤ p.attackDamage) →
        (autoAttack now p es).2 = skipSurvivors es ∧
        (autoAttack now p es).1.bloodGauge =
          p.bloodGauge + (skipRecovery es : ℚ))) := by
  constructor
  · intro h
    simp [autoAttack, h]
  · intro h
    constructor
    · intro hno
      simp [autoAttack, h, autoVisit_no_kill es p hno]
    · intro hall
      have hk := autoVisit_all_kill es p hall
      simp [autoAttack, h, hk.1, hk.2]

/-- Witness for C2 (amended) at concrete inputs: firing at time 501 on the
two lethal in-range enemies removes `enemyA` only (gauge 100 + 15 = 115,
survivor `enemyB`); firing on the sturdy `enemyC` damages it to 20 health
and keeps it; at time 500 (exactly the cooldown) nothing changes. -/
theorem c2_auto_attack_amended_witness :
    (autoAttack 501 initialPlayer [enemyA, enemyB]).1.bloodGauge = 115 ∧
    (autoAttack 501 initialPlayer [enemyA, enemyB]).2 =
      skipSurvivors [enemyA, enemyB] ∧
    (autoAttack 501 initialPlayer [enemyC]).2 =
      [{ enemyC with health := 20 }] ∧
    autoAttack 500 initialPlayer [enemyC] = (initialPlayer, [enemyC]) := by
  have hfire : (501 : ℚ) - initialPlayer.lastAttackTime >
      initialPlayer.attackCooldown := by norm_num [initialPlayer]
  have hall := ((c2_auto_attack_amended 501 initialPlayer [enemyA, enemyB]).2
    hfire).2 (by
      intro e he
      rcases List.mem_pair.mp he with rfl | rfl <;>
        exact ⟨by norm_num [inAttackRange, initialPlayer, enemyA, enemyB],
          by norm_num [initialPlayer, enemyA, enemyB]⟩)
  have hno := ((c2_auto_attack_amended 501 initialPlayer [enemyC]).2 hfire).1
    (by
      intro e he
      rcases List.mem_singleton.mp he with rfl
      intro _
      norm_num [initialPlayer, enemyC, enemyA])
  have hidle := (c2_auto_attack_amended 500 initialPlayer [enemyC]).1
    (by norm_num [initialPlayer])
  refine ⟨?_, hall.1, ?_, hidle⟩
  · rw [hall.2]
    norm_num [skipRecovery, bloodRecovery, initialPlayer, enemyA]
  · rw [hno]
    norm_num [inAttackRange, initialPlayer, enemyC, enemyA]

/-! ## C4 and C10: explosive enemies -/

/-- An explosive test enemy (damage 5, explosion radius 100, not yet
exploded) at the player start position. -/
def enemyBoom : Enemy :=
  { enemyA with type := EnemyType.explosive, explosionRadius := 100 }

/-- **C4.**  On a tick where an explosive enemy's distance `d` to the player
satisfies `d < 80` (the trigger distance), it applies the one-time area
damage `enemyDamage × 3 × max 0 (1 - d/100)` to the blood gauge (linear
falloff over the 100-unit explosion radius) and is removed from the enemy
list in the same tick (the result carries no enemy), so the explosion
resolves exactly once and the removed enemy can neither integrate its
position nor deal damage on any later tick. -/
theorem c4_explosive_trigger (p : Player) (e : Enemy) (d : ℚ)
    (hex : e.exploded = false) (hr : e.explosionRadius = 100) (hd : d < 80) :
    explosiveStep p e d =
      ({ p with bloodGauge :=
          p.bloodGauge - e.damage * 3 * max 0 (1 - d / 100) }, none) := by
  have h100 : d < (100 : ℚ) := by linarith
  norm_num [explosiveStep, hex, hr, hd, h100]

/-- Witness for C4: the explosive test enemy triggering at distance 50
deals `5 × 3 × (1 - 50/100) = 7.5` damage (gauge 100 → 92.5) and is gone. -/
theorem c4_explosive_trigger_witness :
    (explosiveStep initialPlayer enemyBoom 50).1.bloodGauge = 92.5 ∧
    (explosiveStep initialPlayer enemyBoom 50).2 = none := by
  have h := c4_explosive_trigger initialPlayer enemyBoom 50
    (by norm_num [enemyBoom, enemyA]) (by norm_num [enemyBoom, enemyA])
    (by norm_num)
  rw [h]
  norm_num [initialPlayer, enemyBoom, enemyA]

/-- **C10.**  An explosive enemy never applies continuous contact damage: on
every tick in which it does not trigger (distance to the player ≥ 80) the
player state — in particular the blood gauge — is unchanged by that enemy,
regardless of overlap, and the enemy is not removed; the only gauge
reduction it can cause is its one-time explosion damage (theorem
`c4_explosive_trigger`). -/
theorem c10_explosive_no_contact_damage (p : Player) (e : Enemy) (d : ℚ)
    (hd : 80 ≤ d) :
    (explosiveStep p e d).1 = p ∧ (explosiveStep p e d).2 ≠ none := by
  have hnd : ¬ (d < 80) := by linarith
  by_cases hex : e.exploded <;> simp [explosiveStep, hex, hnd]

/-- Witness for C10: at exactly the trigger distance 80 (an overlapping
position, since the radii sum to 35 < 80 is false here — the enemy and the
player circles may even intersect), the player is unchanged. -/
theorem c10_explosive_no_contact_damage_witness :
    (explosiveStep initialPlayer enemyBoom 80).1 = initialPlayer ∧
    (explosiveStep initialPlayer enemyBoom 80).2 ≠ none :=
  c10_explosive_no_contact_damage initialPlayer enemyBoom 80 (by norm_num)

/-! ## C7: homing projectile speed invariant -/

/-- **C7.**  For a homing player projectile with velocity of magnitude 8
(`vx² + vy² = 64`), one homing step — 15% interpolation toward the unit
direction to the nearest enemy scaled to speed 8, then renormalization to
speed 8 — yields a velocity of magnitude exactly 8 again, for any position
of the nearest enemy (any `dx, dy`, with `d` the distance to it and `s` the
magnitude of the interpolated velocity); and when no enemy exists the
velocity is left unchanged. -/
theorem c7_homing_constant_speed (vx vy dx dy d s : ℚ)
    (hd : d ^ 2 = dx ^ 2 + dy ^ 2) (hd0 : 0 ≤ d)
    (hs : s ^ 2 = (homingInterp vx vy dx dy d).1 ^ 2 +
                  (homingInterp vx vy dx dy d).2 ^ 2)
    (hs0 : 0 ≤ s) (hv : vx ^ 2 + vy ^ 2 = 64) :
    (homingStep vx vy dx dy d s).1 ^ 2 +
      (homingStep vx vy dx dy d s).2 ^ 2 = 64 ∧
    homingUpdate vx vy none d s = (vx, vy) := by
  refine ⟨?_, rfl⟩
  by_cases hdp : d > 0
  · have hdne : d ≠ 0 := ne_of_gt hdp
    have hu : (dx / d * 8) ^ 2 + (dy / d * 8) ^ 2 = 64 := by
      field_simp
      linear_combination (-64 : ℚ) * hd
    have hs2pos : 0 < s ^ 2 := by
      rw [hs]
      simp only [homingInterp]
      nlinarith [sq_nonneg (vx + dx / d * 8), sq_nonneg (vy + dy / d * 8),
        hv, hu]
    have hsp : s > 0 := by
      rcases hs0.lt_or_eq with h | h
      · exact h
      · exfalso
        rw [← h] at hs2pos
        simp at hs2pos
    have hsne : s ≠ 0 := ne_of_gt hsp
    unfold homingStep
    rw [if_pos hdp, if_pos hsp]
    field_simp
    linarith [hs]
  · unfold homingStep
    rw [if_neg hdp]
    exact hv

/-- Witness for C7: a projectile moving right at speed 8 whose nearest enemy
lies straight ahead at distance 1 keeps squared speed 64 after the step. -/
theorem c7_homing_constant_speed_witness :
    (homingStep 8 0 1 0 1 8).1 ^ 2 + (homingStep 8 0 1 0 1 8).2 ^ 2 = 64 :=
  (c7_homing_constant_speed 8 0 1 0 1 8 (by norm_num) (by norm_num)
    (by norm_num [homingInterp]) (by norm_num) (by norm_num)).1

/-! ## C8: zero-distance direction computations -/

/-- **C8 (counterexample).**  The claim that all three direction
computations produce a zero vector at distance 0 fails: at distance 0 the
player projectile aim yields the default upward velocity `(0, -8)` — not
the zero vector — and enemy steering keeps the previous velocity (here
`(5, 7)`); only the ranged-enemy projectile gets the zero vector. -/
theorem c8_zero_distance_counterexample :
    playerProjVel 0 0 0 0 0 = (0, -8) ∧
    playerProjVel 0 0 0 0 0 ≠ (0, 0) ∧
    steerVel 0 0 5 7 0 0 0 2 = (5, 7) ∧
    steerVel 0 0 5 7 0 0 0 2 ≠ (0, 0) := by
  norm_num [playerProjVel, steerVel, Prod.ext_iff]

/-- **C8 (amended).**  Every per-tick direction computation that normalizes
the vector between two entities guards the division with a zero-distance
test, so no division by zero is performed; in the distance-0 case the
ranged-enemy projectile velocity is the zero vector, while the player
projectile aim defaults to straight up `(0, -8)` and enemy steering leaves
the previous velocity unchanged. -/
theorem c8_zero_distance_amended (px py tx ty ex ey evx evy sp : ℚ) :
    playerProjVel px py tx ty 0 = (0, -8) ∧
    enemyProjVel ex ey px py 0 = (0, 0) ∧
    steerVel ex ey evx evy px py 0 sp = (evx, evy) := by
  norm_num [playerProjVel, enemyProjVel, steerVel]

/-! ## C5: player ranged fire target selection -/

/-- Taking `min n l.length` elements is the same as taking `n`. -/
theorem list_take_min {α : Type} (l : List α) (n : ℕ) :
    l.take (min n l.length) = l.take n := by
  rcases le_total n l.length with h | h
  · rw [min_eq_left h]
  · rw [min_eq_right h, List.take_length, List.take_of_length_le h]

/-- The comparator `nearerThan p` is transitive. -/
theorem nearerThan_trans (p : Player) (a b c : Enemy)
    (hab : nearerThan p a b = true) (hbc : nearerThan p b c = true) :
    nearerThan p a c = true := by
  simp only [nearerThan, decide_eq_true_eq] at *
  exact le_trans hab hbc

/-- The comparator `nearerThan p` is total. -/
theorem nearerThan_total (p : Player) (a b : Enemy) :
    (nearerThan p a b || nearerThan p b a) = true := by
  simp only [nearerThan, Bool.or_eq_true, decide_eq_true_eq]
  exact le_total _ _

/-- **C5 (counterexample).**  At `projectileLevel` 4 the projectile count is
`N = 1 + floor(3/3) = 2`, but with exactly one enemy present only one
projectile is created: the fan-out fallback runs only when there are zero
targets, so no remaining projectiles are created when `0 < #enemies < N`. -/
theorem c5_fanout_counterexample :
    projectileCount 4 = 2 ∧
    (playerShoot { initialPlayer with projectileLevel := 4 } [enemyA]
      (fun _ => (0, 0)) (fun _ => 0)).length = 1 := by
  constructor
  · norm_num [projectileCount]
  · norm_num [playerShoot, selectTargets, projectileCount, initialPlayer]

/-- **C5 (amended).**  On an activation with
`N = projectileCount projectileLevel = 1 + floor((level-1)/3) ≥ 1`, exactly
one projectile is created per selected target; the targets are the first
`N` entries of the enemy list sorted by distance to the player — a
permutation of the enemies sorted so that every selected target is at most
as far as every non-selected enemy — so with enemies present
`min N #enemies` projectiles are created; only when the enemy list is empty
do exactly `N` projectiles fan out (at positions given by the fan-direction
table). -/
theorem c5_targeting_amended (p : Player) (enemies : List Enemy) (n : ℕ)
    (fan : ℕ → ℚ × ℚ) (dfn : ℚ × ℚ → ℚ) (hn : 0 < n) :
    (selectTargets p enemies n fan).length =
      (if enemies = [] then n else min n enemies.length) ∧
    (enemies = [] → selectTargets p enemies n fan = (List.range n).map fan) ∧
    (enemies ≠ [] →
      selectTargets p enemies n fan =
        ((enemies.mergeSort (nearerThan p)).take n).map fun e => (e.x, e.y)) ∧
    (enemies.mergeSort (nearerThan p)).Perm enemies ∧
    List.Pairwise (fun a b => dist2ToPlayer p a ≤ dist2ToPlayer p b)
      (enemies.mergeSort (nearerThan p)) ∧
    (∀ a ∈ (enemies.mergeSort (nearerThan p)).take n,
      ∀ b ∈ (enemies.mergeSort (nearerThan p)).drop n,
        dist2ToPlayer p a ≤ dist2ToPlayer p b) ∧
    (playerShoot p enemies fan dfn).length =
      (selectTargets p enemies (projectileCount p.projectileLevel) fan).length ∧
    1 ≤ projectileCount p.projectileLevel := by
  have hperm : (enemies.mergeSort (nearerThan p)).Perm enemies :=
    List.mergeSort_perm enemies (nearerThan p)
  have hlen : (enemies.mergeSort (nearerThan p)).length = enemies.length :=
    hperm.length_eq
  have hsorted : List.Pairwise (fun a b => dist2ToPlayer p a ≤ dist2ToPlayer p b)
      (enemies.mergeSort (nearerThan p)) := by
    refine List.Pairwise.imp ?_
      (List.sorted_mergeSort (nearerThan_trans p) (nearerThan_total p) enemies)
    intro a b h
    simpa [nearerThan] using h
  have htake : ∀ m : ℕ, selectTargets p enemies m fan =
      (if enemies.isEmpty ∧ 0 < m then (List.range m).map fan
       else ((enemies.mergeSort (nearerThan p)).take m).map fun e => (e.x, e.y)) := by
    intro m
    simp only [selectTargets]
    rw [show (enemies.mergeSort (nearerThan p)).take
          (min m (enemies.mergeSort (nearerThan p)).length) =
        (enemies.mergeSort (nearerThan p)).take m from
      list_take_min (enemies.mergeSort (nearerThan p)) m]
    rcases he : enemies.isEmpty with hf | ht
    · have hne : enemies ≠ [] := by simpa [List.isEmpty_iff] using he
      have h1 : 0 < enemies.length := List.length_pos.mpr hne
      have hc1 : ¬ ((((enemies.mergeSort (nearerThan p)).take m).map
          (fun e => (e.x, e.y))).length = 0 ∧ 0 < m) := by
        simp only [List.length_map, List.length_take, hlen]
        omega
      rw [if_neg hc1, if_neg (by simp [he])]
    · have hnil : enemies = [] := by simpa [List.isEmpty_iff] using he
      subst hnil
      by_cases hm : 0 < m
      · rw [if_pos (by simp [List.mergeSort_nil, hm]), if_pos (by simp [hm])]
      · rw [if_neg (by simp [hm]), if_neg (by simp [hm])]
  refine ⟨?_, ?_, ?_, hperm, hsorted, ?_, ?_, ?_⟩
  · rw [htake n]
    by_cases he : enemies = []
    · subst he
      simp [hn]
    · have : enemies.isEmpty = false := by simpa [List.isEmpty_iff] using he
      simp [this, he, hlen]
  · intro he
    subst he
    rw [htake n]
    simp [hn]
  · intro he
    rw [htake n]
    have : enemies.isEmpty = false := by simpa [List.isEmpty_iff] using he
    simp [this]
  · have hpw := hsorted
    rw [← List.take_append_drop n (enemies.mergeSort (nearerThan p))] at hpw
    exact fun a ha b hb => (List.pairwise_append.mp hpw).2.2 a ha b hb
  · simp [playerShoot]
  · simp only [projectileCount]
    omega

/-- Witness for C5 (amended): with no enemies the level-4 player's two
projectiles fan out (`2` targets); with the single enemy `enemyA` only
`min 2 1 = 1` target is selected. -/
theorem c5_targeting_amended_witness :
    (selectTargets initialPlayer [] 2 (fun _ => (0, 0))).length = 2 ∧
    (selectTargets initialPlayer [enemyA] 2 (fun _ => (0, 0))).length = 1 := by
  have h1 := (c5_targeting_amended initialPlayer [] 2 (fun _ => (0, 0))
    (fun _ => 0) (by norm_num)).1
  have h2 := (c5_targeting_amended initialPlayer [enemyA] 2 (fun _ => (0, 0))
    (fun _ => 0) (by norm_num)).1
  constructor
  · simpa using h1
  · simpa using h2

/-! ## C9: uncapped blood recovery -/

/-- A player test projectile (radius 6, damage 15). -/
def projP : Projectile :=
  { x := 0
    y := 0
    vx := 0
    vy := 0
    radius := 6
    damage := 15
    fromPlayer := true
    homing := false }

/-- The recovery formula evaluates to exactly `15 * level`. -/
theorem bloodRecovery_eq (l : ℤ) : bloodRecovery l = 15 * l := by
  unfold bloodRecovery
  rw [show (30 : ℚ) * 0.5 * (l : ℚ) = ((15 * l : ℤ) : ℚ) by push_cast; ring]
  exact Int.floor_intCast _

/-- A projectile scan that reports no hit leaves the player untouched. -/
theorem projScan_no_hit_player :
    ∀ (es : List Enemy) (pr : Projectile) (p : Player),
      (projScan pr p es).2.2 = false → (projScan pr p es).1 = p
  | [], _, _, _ => rfl
  | e :: rest, pr, p, h => by
    by_cases hr : (projScan pr p rest).2.2 = true
    · exfalso
      simp [projScan, hr] at h
    · rw [Bool.not_eq_true] at hr
      by_cases hh : projHits pr e = true
      · exfalso
        by_cases hk : ({ e with health := e.health - pr.damage }).health ≤ 0 <;>
          simp [projScan, hr, hh, hk] at h
      · have := projScan_no_hit_player rest pr p hr
        simp [projScan, hr, hh, this]

/-- After a projectile scan the gauge is either unchanged (no kill) or
exactly `oldGauge + bloodRecovery level` for a hit-and-killed enemy of the
list — never clamped. -/
theorem projScan_gauge :
    ∀ (es : List Enemy) (pr : Projectile) (p : Player),
      (projScan pr p es).1.bloodGauge = p.bloodGauge ∨
      ∃ e ∈ es, projHits pr e = true ∧ e.health - pr.damage ≤ 0 ∧
        (projScan pr p es).1.bloodGauge =
          p.bloodGauge + (bloodRecovery e.level : ℚ)
  | [], _, _ => Or.inl rfl
  | e :: rest, pr, p => by
    by_cases hr : (projScan pr p rest).2.2 = true
    · rcases projScan_gauge rest pr p with h | ⟨x, hx, h1, h2, h3⟩
      · left
        simp [projScan, hr, h]
      · right
        exact ⟨x, List.mem_cons_of_mem _ hx, h1, h2, by simp [projScan, hr, h3]⟩
    · rw [Bool.not_eq_true] at hr
      have hp := projScan_no_hit_player rest pr p hr
      by_cases hh : projHits pr e = true
      · by_cases hk : ({ e with health := e.health - pr.damage }).health ≤ 0
        · right
          refine ⟨e, List.mem_cons_self e rest, hh, by simpa using hk, ?_⟩
          simp [projScan, hr, hh, hk, hp]
        · left
          simp [projScan, hr, hh, hk, hp]
      · left
        simp [projScan, hr, hh, hp]

/-- **C9.**  Blood gained from kills is uncapped: `bloodRecovery` is exactly
`floor(30 × 0.5 × level) = 15 × level`; a player projectile that hits and
kills an enemy sets the gauge to exactly `oldGauge + bloodRecovery level`
(and in general a scan either leaves the gauge unchanged or adds exactly one
killed enemy's recovery); an auto-attack kill likewise adds exactly
`bloodRecovery level`; no operation applies an upper clamp, so for any bound
the gauge can be driven above it by enough kills; only the visual display
fraction is capped at 1. -/
theorem c9_uncapped_blood_recovery :
    (∀ l : ℤ, bloodRecovery l = 15 * l) ∧
    (∀ (pr : Projectile) (p : Player) (e : Enemy),
      projHits pr e = true → e.health - pr.damage ≤ 0 →
      projScan pr p [e] =
        ({ p with bloodGauge := p.bloodGauge + (bloodRecovery e.level : ℚ) },
         [], true)) ∧
    (∀ (es : List Enemy) (pr : Projectile) (p : Player),
      (projScan pr p es).1.bloodGauge = p.bloodGauge ∨
      ∃ e ∈ es, projHits pr e = true ∧ e.health - pr.damage ≤ 0 ∧
        (projScan pr p es).1.bloodGauge =
          p.bloodGauge + (bloodRecovery e.level : ℚ)) ∧
    (∀ (p : Player) (e : Enemy),
      inAttackRange p e = true → e.health ≤ p.attackDamage →
      (autoVisit p [e]).1.bloodGauge =
        p.bloodGauge + (bloodRecovery e.level : ℚ)) ∧
    (∀ g B : ℚ, ∀ l : ℤ, 1 ≤ l →
      ∃ n : ℕ, B < g + n * (bloodRecovery l : ℚ)) ∧
    (∀ g : ℚ, displayFraction g ≤ 1 ∧ (100 ≤ g → displayFraction g = 1)) := by
  refine ⟨bloodRecovery_eq, ?_, projScan_gauge, ?_, ?_, ?_⟩
  · intro pr p e hh hk
    simp [projScan, hh, hk]
  · intro p e hin hk
    have h := autoVisit_all_kill [e] p
      (fun x hx => by
        rcases List.mem_singleton.mp hx with rfl
        exact ⟨hin, hk⟩)
    rw [h.2]
    simp [skipRecovery]
  · intro g B l hl
    obtain ⟨n, hn⟩ := exists_nat_gt ((B - g) / 15)
    refine ⟨n, ?_⟩
    have h15 : (B - g) < n * 15 := by
      rw [div_lt_iff (by norm_num : (0:ℚ) < 15)] at hn
      linarith
    have hll : (15 : ℚ) ≤ (bloodRecovery l : ℚ) := by
      rw [bloodRecovery_eq]
      push_cast
      have : (1 : ℚ) ≤ (l : ℚ) := by exact_mod_cast hl
      nlinarith
    have hn0 : (0 : ℚ) ≤ (n : ℚ) := Nat.cast_nonneg n
    nlinarith
  · intro g
    constructor
    · exact min_le_left _ _
    · intro h
      rw [displayFraction, min_eq_left]
      rw [le_div_iff (by norm_num : (0:ℚ) < 100)]
      linarith

/-- Witness for C9: a projectile kill of `enemyA` (level 1) and an
auto-attack kill of `enemyA` each raise the initial gauge from 100 to
exactly 115; kills can push the gauge past any bound, e.g. a million. -/
theorem c9_uncapped_blood_recovery_witness :
    (projScan projP initialPlayer [enemyA]).1.bloodGauge = 115 ∧
    (autoVisit initialPlayer [enemyA]).1.bloodGauge = 115 ∧
    ∃ n : ℕ, (1000000 : ℚ) < 0 + n * (bloodRecovery 1 : ℚ) := by
  have h1 := c9_uncapped_blood_recovery.2.1 projP initialPlayer enemyA
    (by norm_num [projHits, projP, enemyA]) (by norm_num [projP, enemyA])
  have h2 := c9_uncapped_blood_recovery.2.2.2.1 initialPlayer enemyA
    (by norm_num [inAttackRange, initialPlayer, enemyA])
    (by norm_num [initialPlayer, enemyA])
  have h3 := c9_uncapped_blood_recovery.2.2.2.2.1 0 1000000 1 le_rfl
  refine ⟨?_, ?_, h3⟩
  · rw [h1]
    norm_num [initialPlayer, enemyA, bloodRecovery]
  · rw [h2]
    norm_num [initialPlayer, enemyA, bloodRecovery]

end Bakemono
